import Mathlib

/-!
Verification of the forkflow-services order/catalog core.

The embedding mirrors `src/order-service/app/main.py` and
`src/catalog-service/app/main.py`:

* Python dicts become association lists (`dictLookup` / `dictInsert`),
  preserving Python's insertion-order and replace-in-place semantics.
* `HTTPException(status_code, detail)` becomes the `HTTPError` record;
  functions that may raise return `Except HTTPError _`.
* The HTTP transport between the order service and the catalog service is an
  oracle `fetch : String → FetchResult`: for each item id queried under the
  current tenant it either delivers the catalog's answer (a menu item or a
  404) or fails at transport level (`httpx.TimeoutException` /
  `httpx.RequestError`).
* Wall-clock time (`datetime.now()`) and uuid generation are passed in as
  explicit parameters `now` and `order_id`.
* Python floats in prices/totals are modelled as rationals; the claims under
  study are about which values flow into the total, not about rounding.
-/

namespace ForkFlow

/-- OrderStatus enumeration from order-service `main.py`. -/
inductive OrderStatus where
  | pending
  | confirmed
  | preparing
  | ready
  | completed
  | cancelled
deriving DecidableEq, Repr

/-- OrderItem model: one requested line {item_id, quantity, price}. -/
structure OrderItem where
  item_id : String
  quantity : Int
  price : ℚ
deriving DecidableEq, Repr

/-- CreateOrderRequest model from order-service `main.py`. -/
structure CreateOrderRequest where
  items : List OrderItem
  customer_name : String
  table_number : Option Int
  notes : Option String
deriving DecidableEq, Repr

/-- Order model from order-service `main.py`. -/
structure Order where
  id : String
  tenant_id : String
  customer_name : String
  table_number : Option Int
  items : List OrderItem
  total : ℚ
  status : OrderStatus
  notes : Option String
  created_at : Nat
  updated_at : Nat
deriving DecidableEq, Repr

/-- MenuItem record held by the catalog service's `menu_items` store. -/
structure MenuItem where
  id : String
  name : String
  description : String
  category : String
  price : ℚ
  available : Bool
  tenant_id : String
deriving DecidableEq, Repr

/-- HTTPError models FastAPI's `HTTPException(status_code, detail)`. -/
structure HTTPError where
  status_code : Nat
  detail : String
deriving DecidableEq, Repr

/-- Lookup in an association list, modelling Python `d[k]` / `k in d`. -/
def dictLookup {α : Type} (m : List (String × α)) (k : String) : Option α :=
  (m.find? (fun p => p.1 == k)).map (fun p => p.2)

/-- Insertion modelling Python `d[k] = v`: replace in place when the key is
present, append otherwise (Python dicts preserve insertion order). -/
def dictInsert {α : Type} : List (String × α) → String → α → List (String × α)
  | [], k, v => [(k, v)]
  | p :: rest, k, v =>
    if p.1 == k then (k, v) :: rest else p :: dictInsert rest k v

/-- Per-tenant order store, modelling the module-level `orders` dict of the
order service: tenant id → (order id → Order). -/
abbrev OrderStore := List (String × List (String × Order))

/-- Per-tenant catalog, modelling the module-level `menu_items` dict of the
catalog service: tenant id → list of menu items. -/
abbrev Catalog := List (String × List MenuItem)

/-- Outcome of one `client.get(CATALOG_SERVICE_URL/menu/item_id)` round trip
as seen by the order service: the catalog's 200 payload, its 404, or a
transport failure (`httpx.TimeoutException` / `httpx.RequestError`). -/
inductive FetchResult where
  | success (item : MenuItem)
  | notFound
  | timeout
  | reqError (detail : String)
deriving DecidableEq, Repr

/-- Loop body of `validate_menu_items`: walks the requested items in order,
issuing one catalog lookup per item, and stops at the first failure.  Returns
the outcome (`ok true` on success, the raised `HTTPException` otherwise)
paired with the trace of item ids actually queried. -/
def validateLoop (fetch : String → FetchResult) :
    List OrderItem → Except HTTPError Bool × List String
  | [] => (Except.ok true, [])
  | item :: rest =>
    match fetch item.item_id with
    | FetchResult.notFound =>
        (Except.error ⟨400, "Item " ++ item.item_id ++ " not found in menu"⟩,
         [item.item_id])
    | FetchResult.timeout =>
        (Except.error ⟨503, "Catalog service unavailable (timeout)"⟩,
         [item.item_id])
    | FetchResult.reqError d =>
        (Except.error ⟨503, "Catalog service unavailable: " ++ d⟩,
         [item.item_id])
    | FetchResult.success mi =>
        if mi.available then
          ((validateLoop fetch rest).1,
           item.item_id :: (validateLoop fetch rest).2)
        else
          (Except.error ⟨400, "Item " ++ item.item_id ++ " is not available"⟩,
           [item.item_id])

/-- Result of `validate_menu_items(tenant_id, items)`. -/
def validate_menu_items (fetch : String → FetchResult)
    (items : List OrderItem) : Except HTTPError Bool :=
  (validateLoop fetch items).1

/-- Item ids for which `validate_menu_items` actually issued a catalog
lookup, in order. -/
def validateQueries (fetch : String → FetchResult)
    (items : List OrderItem) : List String :=
  (validateLoop fetch items).2

/-- Check whether a single line passes validation: its lookup succeeds at
transport level, finds the item, and the item is available. -/
def itemPasses (fetch : String → FetchResult) (it : OrderItem) : Bool :=
  match fetch it.item_id with
  | FetchResult.success mi => mi.available
  | _ => false

/-- The `create_order` handler: validate all items against the catalog, then
compute the total from the submitted prices, build the order in status
pending, and store it under `(tenant, order_id)`.  Returns the response (or
the propagated `HTTPException`) together with the resulting store. -/
def create_order (fetch : String → FetchResult) (tenant : String)
    (req : CreateOrderRequest) (order_id : String) (now : Nat)
    (store : OrderStore) : Except HTTPError Order × OrderStore :=
  match validate_menu_items fetch req.items with
  | Except.error e => (Except.error e, store)
  | Except.ok _ =>
    let total : ℚ := (req.items.map (fun it => it.price * (it.quantity : ℚ))).sum
    let order : Order :=
      { id := order_id
        tenant_id := tenant
        customer_name := req.customer_name
        table_number := req.table_number
        items := req.items
        total := total
        status := OrderStatus.pending
        notes := req.notes
        created_at := now
        updated_at := now }
    let tmap := (dictLookup store tenant).getD []
    (Except.ok order, dictInsert store tenant (dictInsert tmap order_id order))

/-- The `GET /orders` handler: all orders of a tenant, empty when the tenant
has no entry. -/
def get_orders (store : OrderStore) (tenant : String) : List Order :=
  match dictLookup store tenant with
  | none => []
  | some m => m.map (fun p => p.2)

/-- The `GET /orders/{order_id}` handler: `none` models the 404 response. -/
def get_order (store : OrderStore) (tenant order_id : String) : Option Order :=
  match dictLookup store tenant with
  | none => none
  | some m => dictLookup m order_id

/-- Result of `PATCH /orders/{order_id}/status`. -/
inductive UpdateResult where
  | updated (o : Order)
  | notFound
deriving DecidableEq, Repr

/-- The `update_order_status` handler: 404 when the `(tenant, order_id)` pair
is unknown, otherwise overwrite the status, refresh `updated_at`, and return
the mutated order.  The resulting store is returned alongside. -/
def update_order_status (store : OrderStore) (tenant order_id : String)
    (new_status : OrderStatus) (now : Nat) : UpdateResult × OrderStore :=
  match dictLookup store tenant with
  | none => (UpdateResult.notFound, store)
  | some m =>
    match dictLookup m order_id with
    | none => (UpdateResult.notFound, store)
    | some o =>
      let o' : Order := { o with status := new_status, updated_at := now }
      (UpdateResult.updated o',
       dictInsert store tenant (dictInsert m order_id o'))

/-- The catalog service's `GET /menu/{item_id}` handler: `none` models the
404 raised when the tenant has no menu or the id is absent from it. -/
def get_menu_item (menu : Catalog) (tenant item_id : String) : Option MenuItem :=
  match dictLookup menu tenant with
  | none => none
  | some items => items.find? (fun i => i.id == item_id)

/-- Store well-formedness: every order sits under its own id as key.  This
holds in the running service because `create_order` stores each order under
the freshly generated `order_id` it embeds, and status updates keep the id. -/
def StoreWf (store : OrderStore) : Prop :=
  ∀ tm ∈ store, ∀ p ∈ tm.2, (p.2).id = p.1

instance (store : OrderStore) : Decidable (StoreWf store) := by
  unfold StoreWf
  infer_instance

deriving instance DecidableEq for Except

/-! Helper lemmas about the dict model. -/

theorem dictLookup_some_mem {α : Type} (m : List (String × α)) (k : String)
    (v : α) (h : dictLookup m k = some v) : ∃ p ∈ m, p.2 = v := by
  unfold dictLookup at h
  cases hf : m.find? (fun p => p.1 == k) with
  | none => rw [hf] at h; cases h
  | some p =>
    rw [hf] at h
    exact ⟨p, List.mem_of_find?_eq_some hf, by simpa using h⟩

theorem dictLookup_dictInsert_self {α : Type} (m : List (String × α))
    (k : String) (v : α) : dictLookup (dictInsert m k v) k = some v := by
  induction m with
  | nil => simp [dictLookup, dictInsert, List.find?]
  | cons p rest ih =>
    by_cases h : p.1 = k
    · simp [dictLookup, dictInsert, h, List.find?]
    · have hb : (p.1 == k) = false := beq_eq_false_iff_ne.mpr h
      simp only [dictInsert, hb, if_false]
      simpa [dictLookup, List.find?, hb] using ih

theorem dictLookup_dictInsert_ne {α : Type} (m : List (String × α))
    (k k' : String) (v : α) (h : k ≠ k') :
    dictLookup (dictInsert m k v) k' = dictLookup m k' := by
  induction m with
  | nil =>
    simp [dictLookup, dictInsert, List.find?, beq_eq_false_iff_ne.mpr h]
  | cons p rest ih =>
    by_cases hp : p.1 = k
    · subst hp
      simp [dictLookup, dictInsert, List.find?, beq_eq_false_iff_ne.mpr h]
    · have hb : (p.1 == k) = false := beq_eq_false_iff_ne.mpr hp
      simp only [dictInsert, hb, if_false]
      by_cases hq : p.1 = k'
      · simp [dictLookup, List.find?, hq]
      · have hb' : (p.1 == k') = false := beq_eq_false_iff_ne.mpr hq
        simpa [dictLookup, List.find?, hb'] using ih

theorem get_order_after_insert (store : OrderStore) (tenant oid : String)
    (m : List (String × Order)) (o : Order) :
    get_order (dictInsert store tenant (dictInsert m oid o)) tenant oid =
      some o := by
  unfold get_order
  rw [dictLookup_dictInsert_self]
  exact dictLookup_dictInsert_self m oid o

theorem dictLookup_eq_none_forbids_key {α : Type} (m : List (String × α))
    (k : String) (h : dictLookup m k = none) : ∀ p ∈ m, p.1 ≠ k := by
  induction m with
  | nil => intro p hp; cases hp
  | cons q rest ih =>
    intro p hp
    by_cases hqk : q.1 = k
    · exfalso
      simp [dictLookup, List.find?, hqk] at h
    · have hb : (q.1 == k) = false := beq_eq_false_iff_ne.mpr hqk
      have h' : dictLookup rest k = none := by
        simpa [dictLookup, List.find?, hb] using h
      rcases List.mem_cons.mp hp with hq | hq
      · rw [hq]; exact hqk
      · exact ih h' p hq

/-! Helper lemmas about the validation loop. -/

theorem validateLoop_cons_pass (fetch : String → FetchResult)
    (p : OrderItem) (rest : List OrderItem)
    (hp : itemPasses fetch p = true) :
    validateLoop fetch (p :: rest) =
      ((validateLoop fetch rest).1, p.item_id :: (validateLoop fetch rest).2) := by
  unfold itemPasses at hp
  conv_lhs => unfold validateLoop
  cases hfe : fetch p.item_id with
  | success mi =>
    rw [hfe] at hp
    have hav : mi.available = true := hp
    simp [hav]
  | notFound => rw [hfe] at hp; simp at hp
  | timeout => rw [hfe] at hp; simp at hp
  | reqError d => rw [hfe] at hp; simp at hp

theorem validateLoop_all_pass (fetch : String → FetchResult) :
    ∀ items : List OrderItem, (∀ p ∈ items, itemPasses fetch p = true) →
      validateLoop fetch items = (Except.ok true, items.map (fun p => p.item_id)) := by
  intro items
  induction items with
  | nil => intro _; rfl
  | cons p rest ih =>
    intro h
    rw [validateLoop_cons_pass fetch p rest (h p (List.mem_cons_self p rest)),
        ih (fun q hq => h q (List.mem_cons_of_mem p hq))]
    rfl

theorem validateLoop_append_pass (fetch : String → FetchResult)
    (pre post : List OrderItem)
    (h : ∀ p ∈ pre, itemPasses fetch p = true) :
    validateLoop fetch (pre ++ post) =
      ((validateLoop fetch post).1,
       pre.map (fun p => p.item_id) ++ (validateLoop fetch post).2) := by
  induction pre with
  | nil => rfl
  | cons p rest ih =>
    rw [List.cons_append,
        validateLoop_cons_pass fetch p (rest ++ post)
          (h p (List.mem_cons_self p rest)),
        ih (fun q hq => h q (List.mem_cons_of_mem p hq))]
    rfl

theorem validateLoop_cons_fail (fetch : String → FetchResult)
    (it : OrderItem) (rest : List OrderItem)
    (hf : itemPasses fetch it = false) :
    (validateLoop fetch (it :: rest)).2 = [it.item_id] ∧
    (fetch it.item_id = FetchResult.notFound →
       (validateLoop fetch (it :: rest)).1 =
         Except.error ⟨400, "Item " ++ it.item_id ++ " not found in menu"⟩) ∧
    (fetch it.item_id = FetchResult.timeout →
       (validateLoop fetch (it :: rest)).1 =
         Except.error ⟨503, "Catalog service unavailable (timeout)"⟩) ∧
    (∀ d, fetch it.item_id = FetchResult.reqError d →
       (validateLoop fetch (it :: rest)).1 =
         Except.error ⟨503, "Catalog service unavailable: " ++ d⟩) ∧
    (∀ mi, fetch it.item_id = FetchResult.success mi →
       (validateLoop fetch (it :: rest)).1 =
         Except.error ⟨400, "Item " ++ it.item_id ++ " is not available"⟩) := by
  unfold itemPasses at hf
  cases hfe : fetch it.item_id with
  | success mi =>
    rw [hfe] at hf
    have hav : mi.available = false := hf
    refine ⟨?_, ?_, ?_, ?_, ?_⟩
    · simp [validateLoop, hfe, hav]
    · intro h; cases h
    · intro h; cases h
    · intro d h; cases h
    · intro mi' h
      cases h
      simp [validateLoop, hfe, hav]
  | notFound =>
    refine ⟨?_, ?_, ?_, ?_, ?_⟩
    · simp [validateLoop, hfe]
    · intro _; simp [validateLoop, hfe]
    · intro h; cases h
    · intro d h; cases h
    · intro mi h; cases h
  | timeout =>
    refine ⟨?_, ?_, ?_, ?_, ?_⟩
    · simp [validateLoop, hfe]
    · intro h; cases h
    · intro _; simp [validateLoop, hfe]
    · intro d h; cases h
    · intro mi h; cases h
  | reqError d =>
    refine ⟨?_, ?_, ?_, ?_, ?_⟩
    · simp [validateLoop, hfe]
    · intro h; cases h
    · intro h; cases h
    · intro d' h
      cases h
      simp [validateLoop, hfe]
    · intro mi h; cases h

/-! Concrete sample data used by witnesses and counterexamples. -/

/-- Sample available catalog item, mirroring the seeded `burger-001`. -/
def sampleItem : MenuItem :=
  { id := "burger-001", name := "Classic Burger", description := "Beef patty"
    category := "burgers", price := 2, available := true, tenant_id := "t1" }

/-- Sample transport oracle: one available item, one unavailable item, one
unknown id, one id whose call times out, one whose call fails at transport
level. -/
def sampleFetch : String → FetchResult := fun item_id =>
  if item_id == "burger-001" then FetchResult.success sampleItem
  else if item_id == "pizza-002" then
    FetchResult.success
      { sampleItem with id := "pizza-002", name := "Pizza", available := false }
  else if item_id == "slow-001" then FetchResult.timeout
  else if item_id == "down-001" then FetchResult.reqError "connect"
  else FetchResult.notFound

/-- Line for the available item. -/
def burgerLine : OrderItem := { item_id := "burger-001", quantity := 2, price := 2 }

/-- Line for an id absent from the catalog. -/
def ghostLine : OrderItem := { item_id := "ghost-999", quantity := 1, price := 1 }

/-- Line for the unavailable item. -/
def pizzaLine : OrderItem := { item_id := "pizza-002", quantity := 1, price := 3 }

/-- Line whose catalog call times out. -/
def slowLine : OrderItem := { item_id := "slow-001", quantity := 1, price := 1 }

/-- Line whose catalog call fails at transport level. -/
def downLine : OrderItem := { item_id := "down-001", quantity := 1, price := 1 }

/-- Request containing only the available item. -/
def burgerReq : CreateOrderRequest :=
  { items := [burgerLine], customer_name := "Ada", table_number := none, notes := none }

/-- Request whose second line's lookup times out. -/
def slowReq : CreateOrderRequest :=
  { items := [burgerLine, slowLine], customer_name := "Ada", table_number := none
    notes := none }

/-- Request containing a not-found item after a valid one. -/
def ghostReq : CreateOrderRequest :=
  { items := [burgerLine, ghostLine], customer_name := "Ada", table_number := none
    notes := none }

/-- Request with an empty lines list. -/
def emptyReq : CreateOrderRequest :=
  { items := [], customer_name := "Eve", table_number := none, notes := none }

/-- An order already sitting in the store under id `o1`. -/
def oldOrder : Order :=
  { id := "o1", tenant_id := "t1", customer_name := "Ada", table_number := none
    items := [], total := 0, status := OrderStatus.pending, notes := none
    created_at := 0, updated_at := 0 }

/-- Store already holding `oldOrder` under tenant `t1`, id `o1`. -/
def dupStore : OrderStore := [("t1", [("o1", oldOrder)])]

/-! Claim theorems. -/

/-- C1: whenever `create_order` yields a validation failure (a line's item
not found or not available) or a catalog-unavailability error (timeout or
transport failure) — i.e. any propagated `HTTPException` — the order store
after the call equals the order store before it: nothing is persisted for
that attempt. -/
theorem create_order_error_preserves_store
    (fetch : String → FetchResult) (tenant : String) (req : CreateOrderRequest)
    (order_id : String) (now : Nat) (store : OrderStore) (e : HTTPError)
    (h : (create_order fetch tenant req order_id now store).1 = Except.error e) :
    (create_order fetch tenant req order_id now store).2 = store := by
  cases hv : validate_menu_items fetch req.items with
  | error e' => simp [create_order, hv]
  | ok b => simp [create_order, hv] at h

/-- Witness for C1 at a concrete input: a request with a not-found second
item is rejected and the (initially empty) store stays empty. -/
theorem create_order_error_preserves_store_witness :
    (create_order sampleFetch "t1" ghostReq "o9" 7 []).1 =
      Except.error ⟨400, "Item ghost-999 not found in menu"⟩ ∧
    (create_order sampleFetch "t1" ghostReq "o9" 7 []).2 = [] := by
  refine ⟨by decide, ?_⟩
  exact create_order_error_preserves_store sampleFetch "t1" ghostReq "o9" 7 []
    ⟨400, "Item ghost-999 not found in menu"⟩ (by decide)

/-- C4: every successfully created order carries
`total = Σ unit_price × quantity` over the submitted lines, computed from
the prices supplied in the request (the catalog's prices never enter the
computation). -/
theorem create_order_total_eq_sum
    (fetch : String → FetchResult) (tenant : String) (req : CreateOrderRequest)
    (order_id : String) (now : Nat) (store : OrderStore) (o : Order)
    (h : (create_order fetch tenant req order_id now store).1 = Except.ok o) :
    o.total = (req.items.map (fun it => it.price * (it.quantity : ℚ))).sum ∧
    o.items = req.items := by
  cases hv : validate_menu_items fetch req.items with
  | error e => simp [create_order, hv] at h
  | ok b =>
    simp [create_order, hv] at h
    rw [← h]
    exact ⟨rfl, rfl⟩

/-- Expected order for the sample one-line request: total is 2 × 2 = 4. -/
def burgerOrder : Order :=
  { id := "o4", tenant_id := "t1", customer_name := "Ada"
    table_number := none, items := [burgerLine], total := 4
    status := OrderStatus.pending, notes := none
    created_at := 7, updated_at := 7 }

/-- Evaluation of `create_order` on the sample one-line request. -/
theorem create_order_burger_eval :
    (create_order sampleFetch "t1" burgerReq "o4" 7 []).1 =
      Except.ok burgerOrder := by
  simp only [create_order, validate_menu_items, validateLoop, burgerReq,
    burgerLine, sampleFetch, sampleItem, burgerOrder]
  norm_num

/-- Witness for C4 at a concrete input: one line with price 2 and
quantity 2 gives total 4. -/
theorem create_order_total_eq_sum_witness :
    (create_order sampleFetch "t1" burgerReq "o4" 7 []).1 =
      Except.ok burgerOrder ∧
    burgerOrder.total =
      (burgerReq.items.map (fun it => it.price * (it.quantity : ℚ))).sum := by
  refine ⟨create_order_burger_eval, ?_⟩
  exact (create_order_total_eq_sum sampleFetch "t1" burgerReq "o4" 7 []
    burgerOrder create_order_burger_eval).1

/-- C9: a status update on a `(tenant, order_id)` pair the store does not
hold returns the 404 outcome and leaves the store exactly as it was. -/
theorem update_order_status_unknown_preserves_store
    (store : OrderStore) (tenant order_id : String) (new_status : OrderStatus)
    (now : Nat) (h : get_order store tenant order_id = none) :
    update_order_status store tenant order_id new_status now =
      (UpdateResult.notFound, store) := by
  unfold get_order at h
  cases ht : dictLookup store tenant with
  | none => simp [update_order_status, ht]
  | some m =>
    rw [ht] at h
    simp only [] at h
    simp [update_order_status, ht, h]

/-- Witness for C9 at a concrete input: updating an unknown order id in a
non-empty store returns 404 and the store is untouched. -/
theorem update_order_status_unknown_preserves_store_witness :
    get_order dupStore "t1" "o777" = none ∧
    update_order_status dupStore "t1" "o777" OrderStatus.confirmed 9 =
      (UpdateResult.notFound, dupStore) := by
  refine ⟨by decide, ?_⟩
  exact update_order_status_unknown_preserves_store dupStore "t1" "o777"
    OrderStatus.confirmed 9 (by decide)

/-- C10: listing orders for a tenant that never stored one returns the
empty list — `get_orders` is total and never yields a 404. -/
theorem get_orders_unknown_tenant_empty (store : OrderStore) (tenant : String)
    (h : dictLookup store tenant = none) : get_orders store tenant = [] := by
  simp [get_orders, h]

/-- Witness for C10 at a concrete input: a tenant absent from a non-empty
store lists no orders. -/
theorem get_orders_unknown_tenant_empty_witness :
    dictLookup dupStore "t42" = none ∧ get_orders dupStore "t42" = [] := by
  refine ⟨by decide, ?_⟩
  exact get_orders_unknown_tenant_empty dupStore "t42" (by decide)

/-- C2: validation queries the catalog strictly in line order; with every
line up to the first failing one passing, the failing line — not found, or
found but unavailable — immediately yields the 400 rejection naming that
line's item id, and no lookup is issued for any later line (the query trace
stops at the failing id); when every line passes, validation returns ok and
queries each line once, in order. -/
theorem validate_menu_items_sequential_short_circuit
    (fetch : String → FetchResult) :
    (∀ items : List OrderItem, (∀ p ∈ items, itemPasses fetch p = true) →
       validate_menu_items fetch items = Except.ok true ∧
       validateQueries fetch items = items.map (fun p => p.item_id)) ∧
    (∀ (before : List OrderItem) (it : OrderItem) (rest : List OrderItem),
       (∀ p ∈ before, itemPasses fetch p = true) →
       itemPasses fetch it = false →
       validateQueries fetch (before ++ it :: rest) =
         before.map (fun p => p.item_id) ++ [it.item_id] ∧
       (fetch it.item_id = FetchResult.notFound →
          validate_menu_items fetch (before ++ it :: rest) =
            Except.error ⟨400, "Item " ++ it.item_id ++ " not found in menu"⟩) ∧
       (∀ mi, fetch it.item_id = FetchResult.success mi →
          validate_menu_items fetch (before ++ it :: rest) =
            Except.error ⟨400, "Item " ++ it.item_id ++ " is not available"⟩)) := by
  constructor
  · intro items hall
    unfold validate_menu_items validateQueries
    rw [validateLoop_all_pass fetch items hall]
    exact ⟨rfl, rfl⟩
  · intro before it rest hall hf
    have hsplit := validateLoop_append_pass fetch before (it :: rest) hall
    have hfail := validateLoop_cons_fail fetch it rest hf
    unfold validate_menu_items validateQueries
    rw [hsplit]
    refine ⟨?_, ?_, ?_⟩
    · simp [hfail.1]
    · intro h
      simp [(hfail.2.1) h]
    · intro mi h
      simp [(hfail.2.2.2.2) mi h]

/-- Witness for C2 at a concrete input: in a three-line request whose second
line's id is unknown, validation rejects with a 400 naming `ghost-999` and
queries only the first two ids. -/
theorem validate_sequential_short_circuit_witness :
    (∀ p ∈ [burgerLine], itemPasses sampleFetch p = true) ∧
    itemPasses sampleFetch ghostLine = false ∧
    validate_menu_items sampleFetch [burgerLine, ghostLine, pizzaLine] =
      Except.error ⟨400, "Item ghost-999 not found in menu"⟩ ∧
    validateQueries sampleFetch [burgerLine, ghostLine, pizzaLine] =
      ["burger-001", "ghost-999"] := by
  have h := (validate_menu_items_sequential_short_circuit sampleFetch).2
    [burgerLine] ghostLine [pizzaLine] (by decide) (by decide)
  refine ⟨by decide, by decide, ?_, ?_⟩
  · exact h.2.1 (by decide)
  · exact h.1

/-- C3: a transport-level timeout on a lookup yields the 503
`Catalog service unavailable (timeout)` error and any other transport
failure yields the 503 `Catalog service unavailable: <detail>` error, both
in the service-unavailable class (503) as opposed to the 400 class used for
rejections; and `create_order` propagates exactly the errors of
`validate_menu_items`, unchanged in both status code and detail. -/
theorem validate_unavailable_and_propagation
    (fetch : String → FetchResult) (tenant : String) (req : CreateOrderRequest)
    (order_id : String) (now : Nat) (store : OrderStore) :
    (∀ (before : List OrderItem) (it : OrderItem) (rest : List OrderItem),
       (∀ p ∈ before, itemPasses fetch p = true) →
       (fetch it.item_id = FetchResult.timeout →
          validate_menu_items fetch (before ++ it :: rest) =
            Except.error ⟨503, "Catalog service unavailable (timeout)"⟩) ∧
       (∀ d, fetch it.item_id = FetchResult.reqError d →
          validate_menu_items fetch (before ++ it :: rest) =
            Except.error ⟨503, "Catalog service unavailable: " ++ d⟩)) ∧
    (∀ e, (create_order fetch tenant req order_id now store).1 = Except.error e ↔
          validate_menu_items fetch req.items = Except.error e) := by
  constructor
  · intro before it rest hall
    constructor
    · intro h
      have hf : itemPasses fetch it = false := by
        unfold itemPasses; rw [h]
      have hsplit := validateLoop_append_pass fetch before (it :: rest) hall
      unfold validate_menu_items
      rw [hsplit]
      simp [(validateLoop_cons_fail fetch it rest hf).2.2.1 h]
    · intro d h
      have hf : itemPasses fetch it = false := by
        unfold itemPasses; rw [h]
      have hsplit := validateLoop_append_pass fetch before (it :: rest) hall
      unfold validate_menu_items
      rw [hsplit]
      simp [(validateLoop_cons_fail fetch it rest hf).2.2.2.1 d h]
  · intro e
    cases hv : validate_menu_items fetch req.items with
    | error e' => simp [create_order, hv]
    | ok b => simp [create_order, hv]

/-- Witness for C3 at concrete inputs: a timeout after one passing line
yields the 503 timeout error, a transport failure yields the 503 network
error with its detail, and `create_order` surfaces the very same 503 error
for the timing-out request. -/
theorem validate_unavailable_and_propagation_witness :
    validate_menu_items sampleFetch [burgerLine, slowLine] =
      Except.error ⟨503, "Catalog service unavailable (timeout)"⟩ ∧
    validate_menu_items sampleFetch [downLine] =
      Except.error ⟨503, "Catalog service unavailable: connect"⟩ ∧
    (create_order sampleFetch "t1" slowReq "o8" 7 []).1 =
      Except.error ⟨503, "Catalog service unavailable (timeout)"⟩ := by
  have h := validate_unavailable_and_propagation sampleFetch "t1" slowReq "o8" 7 []
  refine ⟨?_, ?_, ?_⟩
  · exact (h.1 [burgerLine] slowLine [] (by decide)).1 (by decide)
  · exact (h.1 [] downLine [] (by decide)).2 "connect" (by decide)
  · exact (h.2 ⟨503, "Catalog service unavailable (timeout)"⟩).mpr
      ((h.1 [burgerLine] slowLine [] (by decide)).1 (by decide))

/-- C7: updating the status of a stored order accepts any new status from
any current status (no transition-legality check), returns the order with
its status replaced and `updated_at` refreshed to the call time — strictly
greater than its prior value whenever the clock advanced — and leaves every
other field (id, tenant, customer name, table number, lines, total, notes,
created_at) unchanged. -/
theorem update_order_status_replaces_status_only
    (store : OrderStore) (tenant order_id : String) (new_status : OrderStatus)
    (now : Nat) (o : Order)
    (h : get_order store tenant order_id = some o)
    (hclock : o.updated_at < now) :
    (update_order_status store tenant order_id new_status now).1 =
      UpdateResult.updated { o with status := new_status, updated_at := now } ∧
    ∀ o', (update_order_status store tenant order_id new_status now).1 =
        UpdateResult.updated o' →
      o'.status = new_status ∧ o'.updated_at = now ∧
      o.updated_at < o'.updated_at ∧
      o'.id = o.id ∧ o'.tenant_id = o.tenant_id ∧
      o'.customer_name = o.customer_name ∧
      o'.table_number = o.table_number ∧ o'.items = o.items ∧
      o'.total = o.total ∧ o'.notes = o.notes ∧
      o'.created_at = o.created_at := by
  unfold get_order at h
  cases ht : dictLookup store tenant with
  | none => rw [ht] at h; cases h
  | some m =>
    rw [ht] at h
    simp only [] at h
    have hres : (update_order_status store tenant order_id new_status now).1 =
        UpdateResult.updated { o with status := new_status, updated_at := now } := by
      simp [update_order_status, ht, h]
    refine ⟨hres, ?_⟩
    intro o' ho'
    rw [hres] at ho'
    cases ho'
    exact ⟨rfl, rfl, hclock, rfl, rfl, rfl, rfl, rfl, rfl, rfl, rfl⟩

/-- Order `o1` after the witnessed status update. -/
def updatedOldOrder : Order :=
  { oldOrder with status := OrderStatus.confirmed, updated_at := 9 }

/-- Witness for C7 at a concrete input: confirming the stored pending order
replaces its status, bumps `updated_at` from 0 to 9, and keeps the other
fields. -/
theorem update_order_status_replaces_status_only_witness :
    get_order dupStore "t1" "o1" = some oldOrder ∧
    oldOrder.updated_at < 9 ∧
    (update_order_status dupStore "t1" "o1" OrderStatus.confirmed 9).1 =
      UpdateResult.updated updatedOldOrder ∧
    updatedOldOrder.status = OrderStatus.confirmed ∧
    updatedOldOrder.updated_at = 9 ∧
    oldOrder.updated_at < updatedOldOrder.updated_at ∧
    updatedOldOrder.customer_name = oldOrder.customer_name ∧
    updatedOldOrder.total = oldOrder.total ∧
    updatedOldOrder.created_at = oldOrder.created_at := by
  have h := update_order_status_replaces_status_only dupStore "t1" "o1"
    OrderStatus.confirmed 9 oldOrder (by decide) (by decide)
  have h2 := h.2 updatedOldOrder h.1
  obtain ⟨hs, hu, hlt, _, _, hc, _, _, htot, _, hcr⟩ := h2
  exact ⟨by decide, by decide, h.1, hs, hu, hlt, hc, htot, hcr⟩

/-- Request submitted while id `o1` is already taken in the store. -/
def dupReq : CreateOrderRequest :=
  { items := [burgerLine], customer_name := "Bob", table_number := none
    notes := none }

/-- Order that `create_order` builds for `dupReq` under the reused id `o1`. -/
def dupNewOrder : Order :=
  { id := "o1", tenant_id := "t1", customer_name := "Bob", table_number := none
    items := [burgerLine], total := 4, status := OrderStatus.pending
    notes := none, created_at := 5, updated_at := 5 }

/-- Evaluation of the duplicate-id create on the concrete sample input. -/
theorem create_order_dup_eval :
    create_order sampleFetch "t1" dupReq "o1" 5 dupStore =
      (Except.ok dupNewOrder, [("t1", [("o1", dupNewOrder)])]) := by
  simp only [create_order, validate_menu_items, validateLoop, dupReq,
    burgerLine, sampleFetch, sampleItem, dupStore, dupNewOrder, oldOrder,
    dictLookup, dictInsert, List.find?]
  norm_num

/-- C5 counterexample: with an order already stored under `(t1, o1)`,
creating another order under the same id does not fail — the call succeeds
and the stored order is silently replaced by the new one. -/
theorem create_order_duplicate_id_no_failure :
    get_order dupStore "t1" "o1" = some oldOrder ∧
    create_order sampleFetch "t1" dupReq "o1" 5 dupStore =
      (Except.ok dupNewOrder, [("t1", [("o1", dupNewOrder)])]) ∧
    dupNewOrder ≠ oldOrder := by
  exact ⟨by decide, create_order_dup_eval, by decide⟩

/-- C5 amended: inserting into the order store never fails — whenever
validation passes, `create_order` returns the order and persists it under
`(tenant, order_id)`, silently replacing any order already stored under that
id instead of reporting a failure. -/
theorem create_order_insert_never_fails
    (fetch : String → FetchResult) (tenant : String) (req : CreateOrderRequest)
    (order_id : String) (now : Nat) (store : OrderStore) (b : Bool)
    (hv : validate_menu_items fetch req.items = Except.ok b) :
    (∀ e, (create_order fetch tenant req order_id now store).1 ≠
       Except.error e) ∧
    ∀ o, (create_order fetch tenant req order_id now store).1 = Except.ok o →
      get_order (create_order fetch tenant req order_id now store).2
        tenant order_id = some o := by
  constructor
  · intro e hc
    simp [create_order, hv] at hc
  · intro o ho
    simp only [create_order, hv] at ho ⊢
    rw [get_order_after_insert]
    simpa using ho

/-- Witness for the amended C5 at a concrete input: after the duplicate-id
create, the store holds the new order under `(t1, o1)`. -/
theorem create_order_insert_never_fails_witness :
    validate_menu_items sampleFetch dupReq.items = Except.ok true ∧
    get_order (create_order sampleFetch "t1" dupReq "o1" 5 dupStore).2
      "t1" "o1" = some dupNewOrder := by
  have h := create_order_insert_never_fails sampleFetch "t1" dupReq "o1" 5
    dupStore true (by decide)
  exact ⟨by decide, h.2 dupNewOrder (congrArg Prod.fst create_order_dup_eval)⟩

/-- C6 counterexample: a request with an empty lines list is not rejected —
even against a transport oracle that always fails, no lookup is issued and
the order is created with total 0. -/
theorem create_order_empty_lines_accepted :
    create_order (fun _ => FetchResult.timeout) "t1" emptyReq "o2" 3 [] =
      (Except.ok
        { id := "o2", tenant_id := "t1", customer_name := "Eve"
          table_number := none, items := [], total := 0
          status := OrderStatus.pending, notes := none
          created_at := 3, updated_at := 3 },
       [("t1",
         [("o2",
           { id := "o2", tenant_id := "t1", customer_name := "Eve"
             table_number := none, items := [], total := 0
             status := OrderStatus.pending, notes := none
             created_at := 3, updated_at := 3 })])]) ∧
    validateQueries (fun _ => FetchResult.timeout) emptyReq.items = [] := by
  constructor <;> rfl

/-- C6 amended: `create_order` on an empty lines list issues no validation
lookups and accepts the request, creating an order with total 0 and no
lines, rather than rejecting it. -/
theorem create_order_empty_lines_spec
    (fetch : String → FetchResult) (tenant : String) (req : CreateOrderRequest)
    (order_id : String) (now : Nat) (store : OrderStore)
    (h : req.items = []) :
    (create_order fetch tenant req order_id now store).1 =
      Except.ok
        { id := order_id, tenant_id := tenant
          customer_name := req.customer_name
          table_number := req.table_number, items := req.items, total := 0
          status := OrderStatus.pending, notes := req.notes
          created_at := now, updated_at := now } ∧
    validateQueries fetch req.items = [] := by
  constructor
  · simp only [create_order, validate_menu_items, validateLoop, h,
      List.map_nil, List.sum_nil]
  · rw [validateQueries, h]
    rfl

/-- C8: cross-tenant isolation.  An order created under tenant A is
invisible under a different tenant B: looking its id up under B still yields
the 404 outcome and B's listing does not contain it.  Likewise a catalog
item id that B's menu does not define — even one defined under A's menu —
is not-found when looked up under B. -/
theorem cross_tenant_isolation
    (store : OrderStore) (tA tB : String) (hAB : tA ≠ tB)
    (fetch : String → FetchResult) (req : CreateOrderRequest)
    (order_id : String) (now : Nat) (o : Order) (store' : OrderStore)
    (hWf : StoreWf store)
    (hnone : get_order store tB order_id = none)
    (hc : create_order fetch tA req order_id now store =
      (Except.ok o, store'))
    (c : Catalog) (item_id : String)
    (_hA : ∃ it ∈ (dictLookup c tA).getD [], it.id = item_id)
    (hB : ∀ it ∈ (dictLookup c tB).getD [], it.id ≠ item_id) :
    get_order store' tB order_id = none ∧
    o ∉ get_orders store' tB ∧
    get_menu_item c tB item_id = none := by
  cases hv : validate_menu_items fetch req.items with
  | error e => simp [create_order, hv] at hc
  | ok b =>
    simp only [create_order, hv, Prod.mk.injEq, Except.ok.injEq] at hc
    obtain ⟨hco, hcs⟩ := hc
    have hoid : o.id = order_id := by rw [← hco]
    have hBlook : dictLookup store' tB = dictLookup store tB := by
      rw [← hcs]
      exact dictLookup_dictInsert_ne store tA tB _ (fun he => hAB he)
    refine ⟨?_, ?_, ?_⟩
    · unfold get_order at hnone ⊢
      rw [hBlook]
      exact hnone
    · intro hmem
      have hmem' : o ∈ get_orders store tB := by
        unfold get_orders at hmem ⊢
        rw [hBlook] at hmem
        exact hmem
      unfold get_orders at hmem'
      cases hm : dictLookup store tB with
      | none => rw [hm] at hmem'; cases hmem'
      | some m =>
        rw [hm] at hmem'
        simp only [List.mem_map] at hmem'
        obtain ⟨p, hpm, hpo⟩ := hmem'
        obtain ⟨q, hqs, hq2⟩ := dictLookup_some_mem store tB m hm
        have hid : (p.2).id = p.1 := hWf q hqs p (by rw [hq2]; exact hpm)
        have hkey : p.1 = order_id := by
          rw [← hid, hpo, hoid]
        have hnone' : dictLookup m order_id = none := by
          unfold get_order at hnone
          rw [hm] at hnone
          exact hnone
        exact dictLookup_eq_none_forbids_key m order_id hnone' p hpm hkey
    · unfold get_menu_item
      cases hcb : dictLookup c tB with
      | none => rfl
      | some its =>
        rw [hcb] at hB
        simp only [Option.getD_some] at hB
        refine List.find?_eq_none.mpr ?_
        intro it hit
        simpa using hB it hit

/-- Concrete order and catalog used by the C8 witness. -/
def c8Order : Order := { burgerOrder with id := "o7" }

/-- Concrete single-tenant catalog used by the C8 witness: `burger-001` is
defined under tenant `t1` only. -/
def c8Catalog : Catalog := [("t1", [sampleItem])]

/-- Evaluation of the C8 witness create call under tenant `t1`. -/
theorem create_order_c8_eval :
    create_order sampleFetch "t1" burgerReq "o7" 7 [] =
      (Except.ok c8Order, [("t1", [("o7", c8Order)])]) := by
  simp only [create_order, validate_menu_items, validateLoop, burgerReq,
    burgerLine, sampleFetch, sampleItem, burgerOrder, c8Order,
    dictLookup, dictInsert, List.find?]
  norm_num

/-- Witness for C8 at a concrete input: the order created under `t1` is
invisible under `t2`, and the catalog item `burger-001` defined under `t1`
is not-found under `t2`. -/
theorem cross_tenant_isolation_witness :
    get_order [] "t2" "o7" = none ∧
    get_order [("t1", [("o7", c8Order)])] "t2" "o7" = none ∧
    c8Order ∉ get_orders [("t1", [("o7", c8Order)])] "t2" ∧
    get_menu_item c8Catalog "t2" "burger-001" = none := by
  have h := cross_tenant_isolation [] "t1" "t2" (by decide) sampleFetch
    burgerReq "o7" 7 c8Order [("t1", [("o7", c8Order)])]
    (by decide)
    (by decide) create_order_c8_eval c8Catalog "burger-001"
    (by decide) (by decide)
  exact ⟨by decide, h.1, h.2.1, h.2.2⟩

/-- Witness for the amended C6 at a concrete input. -/
theorem create_order_empty_lines_spec_witness :
    emptyReq.items = [] ∧
    (create_order sampleFetch "t1" emptyReq "o2" 3 []).1 =
      Except.ok
        { id := "o2", tenant_id := "t1", customer_name := "Eve"
          table_number := none, items := [], total := 0
          status := OrderStatus.pending, notes := none
          created_at := 3, updated_at := 3 } ∧
    validateQueries sampleFetch emptyReq.items = [] := by
  have h := create_order_empty_lines_spec sampleFetch "t1" emptyReq "o2" 3 []
    (by decide)
  exact ⟨rfl, h.1, h.2⟩

end ForkFlow
